import Mathlib

/-!
Verification of the Prob-Horizon statistical computation layer.

The development shallowly embeds the two core components of the
repository:

* `DistributionExplorer` — the distribution catalog & evaluator of
  `src/utils/distribution_explorer.py`: the twelve-entry parameter
  catalog, parameter clamping (`_validate_params`), the per-call
  statistics record of `get_distribution_info`, and the PDF/PMF curve
  computation `calculate_pdf_pmf`.
* `CLTSimulator` — the population registry & sampler of
  `src/utils/clt_simulator.py`: the eight-entry catalog,
  `get_distribution_info` / `get_distribution_description` lookups,
  `simulate_sampling`, and the Kolmogorov–Smirnov reference arguments
  of `calculate_normality_test`.

Calls into the external SciPy library (quantile functions, moments,
random variates) are modelled as oracle inputs: an `Option` result
models a call that may raise an exception, and random draws are an
arbitrary stream `ℕ → ℝ` consumed left to right.  Machine floats are
modelled as exact rationals/reals.
-/

namespace ProbHorizon

/-- Kind of a catalog distribution (the `"type"` field in the Python
catalog): continuous or discrete. -/
inductive DistType where
  | continuous
  | discrete
deriving DecidableEq, Repr

/-- Python `min(a, b)` (binary) on numbers. -/
def pymin (a b : ℚ) : ℚ := if a ≤ b then a else b

/-- Python `max(a, b)` (binary) on numbers. -/
def pymax (a b : ℚ) : ℚ := if b ≤ a then a else b

/-- Python `max(a, b)` (binary) on integers, used for
`max(0, int(...))` in the discrete auto-range. -/
def pymaxZ (a b : ℤ) : ℤ := if b ≤ a then a else b

/-- Python `int(x)` on an exact float value: truncation toward zero. -/
def pyInt (q : ℚ) : ℤ := if 0 ≤ q then ⌊q⌋ else ⌈q⌉

namespace DistributionExplorer

/-- One entry of a distribution's `"params"` mapping: display label,
default value, minimum, maximum and slider step, exactly as declared in
`DistributionExplorer.__init__`. -/
structure ParamCfg where
  label : String
  default : ℚ
  min : ℚ
  max : ℚ
  step : ℚ
deriving DecidableEq, Repr

/-- One catalog entry of the Explorer: kind, ordered parameter spec and
support description, as in `DistributionExplorer.__init__`. -/
structure DistConfig where
  type : DistType
  params : List (String × ParamCfg)
  support : String
deriving DecidableEq, Repr

/-- The `"正态分布"` (Normal) catalog entry, named separately so
concrete theorems can refer to it. -/
def normalConfig : DistConfig :=
  ⟨.continuous,
    [("loc", ⟨"均值 (μ)", 0, -10, 10, 1/10⟩),
     ("scale", ⟨"标准差 (σ)", 1, 1/10, 5, 1/10⟩)], "(-∞, +∞)"⟩

/-- The twelve-entry Explorer catalog `self.distributions`, translated
entry by entry from `DistributionExplorer.__init__` (8 continuous
followed by 4 discrete entries, in source order). -/
def distributions : List (String × DistConfig) := [
  ("正态分布", normalConfig),
  ("均匀分布", ⟨.continuous,
    [("loc", ⟨"下界 (a)", 0, -5, 5, 1/10⟩),
     ("scale", ⟨"区间长度 (b-a)", 1, 1/10, 10, 1/10⟩)], "[a, b]"⟩),
  ("指数分布", ⟨.continuous,
    [("scale", ⟨"尺度参数 (1/λ)", 1, 1/10, 5, 1/10⟩)], "[0, +∞)"⟩),
  ("伽马分布", ⟨.continuous,
    [("a", ⟨"形状参数 (α)", 2, 1/10, 10, 1/10⟩),
     ("scale", ⟨"尺度参数 (β)", 1, 1/10, 5, 1/10⟩)], "[0, +∞)"⟩),
  ("贝塔分布", ⟨.continuous,
    [("a", ⟨"形状参数 (α)", 2, 1/10, 10, 1/10⟩),
     ("b", ⟨"形状参数 (β)", 5, 1/10, 10, 1/10⟩)], "[0, 1]"⟩),
  ("卡方分布", ⟨.continuous,
    [("df", ⟨"自由度 (ν)", 3, 1, 20, 1⟩)], "[0, +∞)"⟩),
  ("t分布", ⟨.continuous,
    [("df", ⟨"自由度 (ν)", 5, 1, 30, 1⟩)], "(-∞, +∞)"⟩),
  ("F分布", ⟨.continuous,
    [("dfn", ⟨"分子自由度", 5, 1, 20, 1⟩),
     ("dfd", ⟨"分母自由度", 10, 1, 30, 1⟩)], "[0, +∞)"⟩),
  ("二项分布", ⟨.discrete,
    [("n", ⟨"试验次数 (n)", 10, 1, 100, 1⟩),
     ("p", ⟨"成功概率 (p)", 3/10, 1/100, 99/100, 1/100⟩)],
    "\x7b0, 1, 2, ..., n\x7d"⟩),
  ("泊松分布", ⟨.discrete,
    [("mu", ⟨"强度参数 (λ)", 3, 1/10, 20, 1/10⟩)],
    "\x7b0, 1, 2, ...\x7d"⟩),
  ("几何分布", ⟨.discrete,
    [("p", ⟨"成功概率 (p)", 3/10, 1/100, 99/100, 1/100⟩)],
    "\x7b1, 2, 3, ...\x7d"⟩),
  ("负二项分布", ⟨.discrete,
    [("n", ⟨"成功次数 (r)", 5, 1, 20, 1⟩),
     ("p", ⟨"成功概率 (p)", 3/10, 1/100, 99/100, 1/100⟩)],
    "\x7b0, 1, 2, ...\x7d"⟩)]

/-- The clamping expression `max(min_val, min(max_val, value))` of
`_validate_params`. -/
def clampValue (min_val max_val value : ℚ) : ℚ :=
  pymax min_val (pymin max_val value)

/-- `_validate_params` over an explicit parameter list: for every
declared parameter take the caller's value if present else the default
(`params.get(param_name, default)`), then clamp into `[min, max]`.
The caller's raw mapping is modelled as `String → Option ℚ`. -/
def validateList (ps : List (String × ParamCfg)) (params : String → Option ℚ) :
    List (String × ℚ) :=
  ps.map (fun pc =>
    (pc.1, clampValue pc.2.min pc.2.max ((params pc.1).getD pc.2.default)))

/-- `DistributionExplorer._validate_params` for a catalog entry. -/
def validate_params (cfg : DistConfig) (params : String → Option ℚ) :
    List (String × ℚ) :=
  validateList cfg.params params

/-- View a validated parameter list (a Python dict with string keys)
again as a raw parameter mapping, for feeding it back into
`_validate_params`. -/
def asParamMap (l : List (String × ℚ)) : String → Option ℚ :=
  fun s => l.lookup s

/-- A Python value appearing in a statistics field of the
`get_distribution_info` result: a number, the `np.nan` sentinel set by
the `except` branch, or Python `None` (set for the quantile/shape
fields of discrete distributions). -/
inductive PyVal where
  | num (q : ℚ)
  | nan
  | pyNone
deriving DecidableEq, Repr

/-- Oracle for the SciPy statistic calls made inside the `try` block of
`DistributionExplorer.get_distribution_info` on the frozen distribution
object: `mean()`, `var()`, `std()`, `ppf(0.25/0.5/0.75)` and the
skewness/kurtosis moments.  `Option.none` models a call that raises. -/
structure StatOracle where
  mean : Option ℚ
  var : Option ℚ
  std : Option ℚ
  q25 : Option ℚ
  q50 : Option ℚ
  q75 : Option ℚ
  skewness : Option ℚ
  kurtosis : Option ℚ
deriving DecidableEq, Repr

/-- The statistics fields of the dict returned by
`DistributionExplorer.get_distribution_info`. -/
structure InfoStats where
  mean : PyVal
  variance : PyVal
  std : PyVal
  q25 : PyVal
  median : PyVal
  q75 : PyVal
  skewness : PyVal
  kurtosis : PyVal
deriving DecidableEq, Repr

/-- The result of the `except` branch of `get_distribution_info`:
every statistic field set to `np.nan`. -/
def allNan : InfoStats := ⟨.nan, .nan, .nan, .nan, .nan, .nan, .nan, .nan⟩

/-- The `try`/`except` statistics block of
`DistributionExplorer.get_distribution_info` (lines 137–154): the
statistic calls run sequentially inside one `try`; an exception in any
of them jumps to the single `except`, which sets all eight fields to
`np.nan`.  For discrete distributions the quantile/shape fields are set
to Python `None`. -/
def get_distribution_info_stats (ty : DistType) (o : StatOracle) : InfoStats :=
  match o.mean, o.var, o.std with
  | some m, some v, some s =>
    match ty with
    | .discrete => ⟨.num m, .num v, .num s, .pyNone, .pyNone, .pyNone, .pyNone, .pyNone⟩
    | .continuous =>
      match o.q25, o.q50, o.q75, o.skewness, o.kurtosis with
      | some a, some b, some c, some d, some e =>
          ⟨.num m, .num v, .num s, .num a, .num b, .num c, .num d, .num e⟩
      | _, _, _, _, _ => allNan
  | _, _, _ => allNan

/-- Predicate: at least one of the statistic computations performed by
`get_distribution_info` for a distribution of kind `ty` raises. -/
def someStatRaises : DistType → StatOracle → Prop
  | .discrete, o =>
      o.mean = Option.none ∨ o.var = Option.none ∨ o.std = Option.none
  | .continuous, o =>
      o.mean = Option.none ∨ o.var = Option.none ∨ o.std = Option.none ∨
      o.q25 = Option.none ∨ o.q50 = Option.none ∨ o.q75 = Option.none ∨
      o.skewness = Option.none ∨ o.kurtosis = Option.none

/-- Oracle for the statistic computations of a continuous distribution
whose 25% quantile call raises while everything else succeeds (the
values chosen are those of the standard normal). -/
def q25FailOracle : StatOracle :=
  ⟨some 0, some 1, some 1, Option.none, some 0, some 1, some 0, some 0⟩

/-- A SciPy float result: finite value, `+inf` or `-inf` (as tested by
`np.isinf`). -/
inductive ScipyFloat where
  | fin (q : ℚ)
  | posInf
  | negInf
deriving DecidableEq, Repr

/-- `np.isinf` on a SciPy float result. -/
def ScipyFloat.isInf : ScipyFloat → Bool
  | .fin _ => false
  | _ => true

/-- Python `int(...)` applied to a SciPy float result:
`int` of an infinity raises `OverflowError`, modelled as `none`. -/
def pyIntSF : ScipyFloat → Option ℤ
  | .fin q => some (pyInt q)
  | _ => Option.none

/-- Oracle for the frozen SciPy distribution object consulted by
`calculate_pdf_pmf`: the two extreme quantile calls (which may raise or
return an infinity), the `mean()`/`std()` calls used for infinite-bound
substitution (which may raise), and the vectorised `pdf`/`pmf`
evaluators (which return values, one per grid point). -/
structure FrozenDist where
  ppf001 : Option ScipyFloat
  ppf999 : Option ScipyFloat
  mean : Option ℚ
  std : Option ℚ
  pdf : ℚ → ℚ
  pmf : ℤ → ℚ

/-- The `mean() - 4 * std()` substitute for an infinite lower bound;
`none` when either moment call raises. -/
def substLo (d : FrozenDist) : Option ℚ :=
  match d.mean, d.std with
  | some m, some s => some (m - 4 * s)
  | _, _ => Option.none

/-- The `mean() + 4 * std()` substitute for an infinite upper bound. -/
def substHi (d : FrozenDist) : Option ℚ :=
  match d.mean, d.std with
  | some m, some s => some (m + 4 * s)
  | _, _ => Option.none

/-- Resolve one continuous auto-bound: a finite quantile is used as is,
an infinite one is replaced by the `mean ± 4·std` substitute (whose
computation may itself raise). -/
def resolveBound (v : ScipyFloat) (sub : Option ℚ) : Option ℚ :=
  match v with
  | .fin q => some q
  | _ => sub

/-- The continuous auto-range selection of `calculate_pdf_pmf`
(lines 196–206): `x_min = ppf(0.001)`, `x_max = ppf(0.999)`, infinite
bounds replaced by `mean ∓ 4·std`; any exception inside the `try`
falls back to the literal bounds `(-5, 5)`. -/
def contAutoRange (d : FrozenDist) : ℚ × ℚ :=
  match d.ppf001, d.ppf999 with
  | some a, some b =>
    match resolveBound a (substLo d), resolveBound b (substHi d) with
    | some lo, some hi => (lo, hi)
    | _, _ => (-5, 5)
  | _, _ => (-5, 5)

/-- The discrete auto-range selection of `calculate_pdf_pmf`
(lines 214–222): `x_min = max(0, int(ppf(0.001)))`,
`x_max = int(ppf(0.999))`, the span capped at 100
(`if x_max - x_min > 100: x_max = x_min + 100`); any exception falls
back to the literal bounds `(0, 20)`. -/
def discreteAutoRange (d : FrozenDist) : ℤ × ℤ :=
  match d.ppf001, d.ppf999 with
  | some a, some b =>
    match pyIntSF a, pyIntSF b with
    | some ia, some ib =>
      let x_min := pymaxZ 0 ia
      let x_max := if 100 < ib - x_min then x_min + 100 else ib
      (x_min, x_max)
    | _, _ => (0, 20)
  | _, _ => (0, 20)

/-- `np.linspace(lo, hi, n)`: `n` evenly spaced points from `lo` to
`hi` inclusive (exact rational arithmetic). -/
def linspace (lo hi : ℚ) (n : ℕ) : List ℚ :=
  (List.range n).map (fun i : ℕ => lo + (hi - lo) * (i : ℚ) / ((n : ℚ) - 1))

/-- `np.arange(lo, hi + 1)`: the integers `lo, lo+1, …, hi`. -/
def arangeInts (lo hi : ℤ) : List ℤ :=
  (List.range (hi + 1 - lo).toNat).map (fun i : ℕ => lo + (i : ℤ))

/-- `DistributionExplorer.calculate_pdf_pmf` (lines 187–229), for a
distribution of kind `ty` whose frozen SciPy object is modelled by
`d`.  Returns the pair `(x, y)` of grid points and density/mass
values.  `num_points` defaults to 1000 at every call site. -/
def calculate_pdf_pmf (ty : DistType) (d : FrozenDist)
    (x_range : Option (ℚ × ℚ)) (num_points : ℕ) : List ℚ × List ℚ :=
  match ty with
  | .continuous =>
    let r := match x_range with
      | Option.none => contAutoRange d
      | some v => v
    let x := linspace r.1 r.2 num_points
    (x, x.map d.pdf)
  | .discrete =>
    let r := match x_range with
      | Option.none => discreteAutoRange d
      | some v => (pyInt v.1, pyInt v.2)
    let x := arangeInts r.1 r.2
    (x.map (fun i : ℤ => (i : ℚ)), x.map d.pmf)

/-- CDF of the geometric distribution on `\x7b1, 2, …\x7d` with success
probability `p`: `P(X ≤ k) = 1 - (1-p)^k` (SciPy's `stats.geom`). -/
def geomCdf (p : ℚ) (k : ℕ) : ℚ := 1 - (1 - p) ^ k

/-- PMF of the geometric distribution on `\x7b1, 2, …\x7d`. -/
def geomPmf (p : ℚ) (k : ℤ) : ℚ :=
  if 1 ≤ k then p * (1 - p) ^ (k - 1).toNat else 0

/-- The frozen SciPy object for the catalog entry `"几何分布"`
(geometric) at the admissible parameter value `p = 0.01`: its 0.1% and
99.9% quantiles are `1` and `688` (certified against `geomCdf` in
`C5_counterexample`), its mean is `1/p = 100`.  The `std` field holds a
rational placeholder (`√(1-p)/p` is irrational); neither `mean` nor
`std` nor `pdf` is consulted on the discrete code path. -/
def geomLowP : FrozenDist :=
  ⟨some (.fin 1), some (.fin 688), some 100, some 100,
   fun _ => 0, geomPmf (1/100)⟩

/-- A frozen distribution object whose quantile calls raise (both
`ppf` calls fail, as do the moment calls). -/
def failingDist : FrozenDist :=
  ⟨Option.none, Option.none, Option.none, Option.none,
   fun _ => 0, fun _ => 0⟩

/-- The frozen standard normal object used to instantiate theorems
about caller-supplied display ranges (only its identity as a
`FrozenDist` matters there: with an explicit range no oracle field
other than `pdf` is consulted, and no stated property depends on the
`pdf` values). -/
def stdNormalDist : FrozenDist :=
  ⟨some (.fin (-309/100)), some (.fin (309/100)), some 0, some 1,
   fun _ => 0, fun _ => 0⟩

/-- The name-lookup gate of `DistributionExplorer.get_distribution_info`
(lines 126–129): an unknown name raises
`ValueError("不支持的分布: …")`, a known name selects its catalog
entry (the remainder of the method — parameter validation and the
statistics block — is modelled by `validate_params` and
`get_distribution_info_stats`). -/
def get_distribution_info_lookup (nm : String) : Except String DistConfig :=
  match distributions.lookup nm with
  | some cfg => .ok cfg
  | Option.none => .error ("不支持的分布: " ++ nm)

/-- `DistributionExplorer.get_param_config` (lines 262–267): an unknown
name raises `ValueError("不支持的分布: …")`, a known name yields its
declared parameter spec. -/
def get_param_config (nm : String) : Except String (List (String × ParamCfg)) :=
  match distributions.lookup nm with
  | some cfg => .ok cfg.params
  | Option.none => .error ("不支持的分布: " ++ nm)

end DistributionExplorer

namespace CLTSimulator

/-- The eight-entry CLT catalog `self.distributions` of
`CLTSimulator.__init__`: distribution name mapped to its fixed
parameter dict (source order preserved). -/
def distributions : List (String × List (String × ℚ)) := [
  ("均匀分布", [("loc", 0), ("scale", 1)]),
  ("正态分布", [("loc", 0), ("scale", 1)]),
  ("指数分布", [("scale", 1)]),
  ("泊松分布", [("mu", 3)]),
  ("伽马分布", [("a", 2), ("scale", 1)]),
  ("贝塔分布", [("a", 2), ("b", 5)]),
  ("卡方分布", [("df", 3)]),
  ("二项分布", [("n", 10), ("p", 3/10)])]

/-- The catalog-lookup part of `CLTSimulator.get_distribution_info`
(lines 27–33): an unknown name raises
`ValueError("不支持的分布: …")`, a known name yields its fixed
parameter dict (the frozen distribution object and the moment values
are external SciPy data, modelled elsewhere). -/
def get_distribution_info (nm : String) : Except String (List (String × ℚ)) :=
  match distributions.lookup nm with
  | some ps => .ok ps
  | Option.none => .error ("不支持的分布: " ++ nm)

/-- The static description table of
`CLTSimulator.get_distribution_description` (lines 131–143). -/
def descriptions : List (String × String) := [
  ("均匀分布", "在固定区间内每个值出现的概率相等，如掷骰子的结果。"),
  ("正态分布", "钟形分布，许多自然现象都遵循正态分布，如身高、体重等。"),
  ("指数分布", "描述事件发生的时间间隔，如客户到达时间、设备故障间隔等。"),
  ("泊松分布", "描述固定时间或空间内事件发生的次数，如每小时接到的电话数。"),
  ("伽马分布", "连续概率分布，常用于描述等待时间，如等待第k个事件发生的时间。"),
  ("贝塔分布", "定义在[0,1]区间的连续分布，常用于描述概率或比例。"),
  ("卡方分布", "统计学中重要的分布，常用于假设检验和置信区间估计。"),
  ("二项分布", "描述n次独立试验中成功次数的分布，如抛硬币正面朝上的次数。")]

/-- `CLTSimulator.get_distribution_description`: a plain
`dict.get(name, "暂无描述")` — it returns the fallback text for an
unregistered name instead of raising. -/
def get_distribution_description (nm : String) : String :=
  (descriptions.lookup nm).getD "暂无描述"

/-- `np.mean` of a one-dimensional array. -/
noncomputable def npMean (xs : List ℝ) : ℝ := xs.sum / xs.length

/-- `np.var(xs, ddof)` : the mean squared deviation from the mean with
divisor `len(xs) - ddof`. -/
noncomputable def npVar (xs : List ℝ) (ddof : ℕ) : ℝ :=
  (xs.map (fun x => (x - npMean xs) ^ 2)).sum / ((xs.length : ℝ) - ddof)

/-- `np.std(xs, ddof)` : the square root of `np.var(xs, ddof)`. -/
noncomputable def npStd (xs : List ℝ) (ddof : ℕ) : ℝ :=
  Real.sqrt (npVar xs ddof)

/-- The `statistics` dict returned by `CLTSimulator.simulate_sampling`
(lines 94–102). -/
structure SamplingStats where
  sample_mean_mean : ℝ
  sample_mean_var : ℝ
  sample_mean_std : ℝ
  theoretical_mean : ℝ
  theoretical_std_of_means : ℝ
  sample_size : ℕ
  num_samples : ℕ

/-- `CLTSimulator.simulate_sampling` (lines 60–104).  The stream
`draw : ℕ → ℝ` models the successive random variates returned by the
frozen distribution's `rvs` calls (batch `i` consumes indices
`i·sample_size … i·sample_size + sample_size - 1`);
`theoretical_mean` and `theoretical_std` are the moment values carried
in the `dist_info` dict.  Returns the `sample_means` array together
with the statistics record: empirical mean, `np.var(·, ddof=1)`,
`np.std(·, ddof=1)`, the theoretical mean, and the CLT standard error
`theoretical_std / sqrt(sample_size)`. -/
noncomputable def simulate_sampling (draw : ℕ → ℝ)
    (theoretical_mean theoretical_std : ℝ)
    (sample_size num_samples : ℕ) : List ℝ × SamplingStats :=
  let sample_means := (List.range num_samples).map (fun i =>
    npMean ((List.range sample_size).map (fun j =>
      draw (i * sample_size + j))))
  (sample_means,
   ⟨npMean sample_means, npVar sample_means 1, npStd sample_means 1,
    theoretical_mean, theoretical_std / Real.sqrt sample_size,
    sample_size, num_samples⟩)

/-- The `args` pair passed to `stats.kstest(sample_means, 'norm', …)`
inside `CLTSimulator.calculate_normality_test` (lines 113–114): the
reference normal is parameterised by `np.mean(sample_means)` and
`np.std(sample_means)` — the latter with NumPy's default `ddof=0`. -/
noncomputable def ks_test_args (sample_means : List ℝ) : ℝ × ℝ :=
  (npMean sample_means, npStd sample_means 0)

end CLTSimulator

/-- Modelled from the spec: "empirical standard deviation of
sample_means (sample, i.e. using Bessel's correction with divisor
m−1)" — the sample standard deviation with divisor `m − 1`, stated
independently of the NumPy embedding for comparison with it. -/
noncomputable def besselSampleStd (xs : List ℝ) : ℝ :=
  Real.sqrt ((xs.map (fun x => (x - xs.sum / xs.length) ^ 2)).sum /
    ((xs.length : ℝ) - 1))

/-! ## Helper lemmas -/

theorem clampValue_idem (lo hi v : ℚ) :
    DistributionExplorer.clampValue lo hi
      (DistributionExplorer.clampValue lo hi v) =
    DistributionExplorer.clampValue lo hi v := by
  unfold DistributionExplorer.clampValue pymin pymax
  split_ifs <;> linarith

theorem lookup_eq_none_of_not_mem_keys {α β : Type} [BEq α] [LawfulBEq α]
    (l : List (α × β)) (a : α) (h : a ∉ l.map Prod.fst) :
    l.lookup a = Option.none := by
  induction l with
  | nil => rfl
  | cons hd tl ih =>
    simp only [List.map_cons, List.mem_cons] at h
    push_neg at h
    have hne : (a == hd.1) = false := by
      simp only [beq_eq_false_iff_ne]
      exact h.1
    rw [List.lookup_cons, hne]
    exact ih h.2

theorem validateList_congr (ps : List (String × DistributionExplorer.ParamCfg))
    (p q : String → Option ℚ) (h : ∀ pc ∈ ps, p pc.1 = q pc.1) :
    DistributionExplorer.validateList ps p =
      DistributionExplorer.validateList ps q :=
  List.map_congr_left fun pc hpc => by rw [h pc hpc]

theorem validateList_idem (ps : List (String × DistributionExplorer.ParamCfg))
    (hnd : (ps.map Prod.fst).Nodup) (p : String → Option ℚ) :
    DistributionExplorer.validateList ps
      (DistributionExplorer.asParamMap (DistributionExplorer.validateList ps p)) =
    DistributionExplorer.validateList ps p := by
  open DistributionExplorer in
  induction ps with
  | nil => rfl
  | cons hd tl ih =>
    rw [List.map_cons, List.nodup_cons] at hnd
    obtain ⟨hmem, hnd⟩ := hnd
    have hhead : asParamMap (validateList (hd :: tl) p) hd.1 =
        some (clampValue hd.2.min hd.2.max ((p hd.1).getD hd.2.default)) := by
      simp [asParamMap, validateList, List.lookup_cons]
    have htail : ∀ pc ∈ tl, asParamMap (validateList (hd :: tl) p) pc.1 =
        asParamMap (validateList tl p) pc.1 := by
      intro pc hpc
      have hne : (pc.1 == hd.1) = false := by
        simp only [beq_eq_false_iff_ne]
        intro e
        exact hmem (e ▸ List.mem_map_of_mem Prod.fst hpc)
      show List.lookup pc.1 _ = List.lookup pc.1 _
      rw [show validateList (hd :: tl) p =
        (hd.1, clampValue hd.2.min hd.2.max ((p hd.1).getD hd.2.default)) ::
          validateList tl p from rfl]
      rw [List.lookup_cons, hne]
    have hexp : validateList (hd :: tl) (asParamMap (validateList (hd :: tl) p)) =
        (hd.1, clampValue hd.2.min hd.2.max
          (((asParamMap (validateList (hd :: tl) p)) hd.1).getD hd.2.default)) ::
        validateList tl (asParamMap (validateList (hd :: tl) p)) := rfl
    rw [hexp, hhead]
    rw [show validateList (hd :: tl) p =
      (hd.1, clampValue hd.2.min hd.2.max ((p hd.1).getD hd.2.default)) ::
        validateList tl p from rfl]
    congr 1
    · rw [Option.getD_some, clampValue_idem]
    · show validateList tl (asParamMap (validateList (hd :: tl) p)) =
        validateList tl p
      rw [validateList_congr tl _ _ htail]
      exact ih hnd

/-! ## Claim theorems -/

/-- C1 (counterexample): in `DistributionExplorer.get_distribution_info`
the statistic computations share one `try`/`except`.  For a continuous
distribution whose 25%-quantile call raises while `mean()` succeeds
(value 0), the returned `mean` field is `np.nan` — it is not left
populated with its computed value, contradicting the claim that only
the raising field is reported as undefined. -/
theorem C1_counterexample :
    DistributionExplorer.q25FailOracle.mean = some 0 ∧
    DistributionExplorer.q25FailOracle.q25 = Option.none ∧
    (DistributionExplorer.get_distribution_info_stats .continuous
      DistributionExplorer.q25FailOracle).q25 = .nan ∧
    (DistributionExplorer.get_distribution_info_stats .continuous
      DistributionExplorer.q25FailOracle).mean = .nan ∧
    (DistributionExplorer.get_distribution_info_stats .continuous
      DistributionExplorer.q25FailOracle).mean ≠ .num 0 := by
  decide

/-- C1 (amended): error handling in the Explorer's evaluate operation
is all-or-nothing, not per-field — if any statistic computation inside
`get_distribution_info` raises, every statistic field of the result is
reported as `np.nan`. -/
theorem C1_all_or_nothing (ty : DistType) (o : DistributionExplorer.StatOracle)
    (h : DistributionExplorer.someStatRaises ty o) :
    DistributionExplorer.get_distribution_info_stats ty o =
      DistributionExplorer.allNan := by
  obtain ⟨m, v, s, a, b, c, d, e⟩ := o
  cases ty
  · simp only [DistributionExplorer.someStatRaises] at h
    cases m <;> cases v <;> cases s <;> cases a <;> cases b <;> cases c <;>
      cases d <;> cases e <;> first | rfl | simp_all
  · simp only [DistributionExplorer.someStatRaises] at h
    cases m <;> cases v <;> cases s <;> first | rfl | simp_all

/-- C1 (witness): the amended theorem applied to the oracle whose
25%-quantile call raises. -/
theorem C1_witness :
    DistributionExplorer.get_distribution_info_stats .continuous
      DistributionExplorer.q25FailOracle = DistributionExplorer.allNan :=
  C1_all_or_nothing .continuous DistributionExplorer.q25FailOracle
    (by simp [DistributionExplorer.someStatRaises,
              DistributionExplorer.q25FailOracle])

/-- C3 (counterexample): the CLT engine's describe operation,
`get_distribution_description`, does not raise on an unknown name — it
silently returns the fallback text `"暂无描述"`, contradicting the
claim that every catalog lookup raises `UnknownDistribution`. -/
theorem C3_counterexample :
    "不存在的分布" ∉ CLTSimulator.distributions.map Prod.fst ∧
    CLTSimulator.get_distribution_description "不存在的分布" = "暂无描述" := by
  exact ⟨by decide, rfl⟩

/-- C3 (amended): for a name absent from the relevant catalog, the CLT
engine's `get_distribution_info`, the Explorer's
`get_distribution_info` (its name-lookup gate) and the Explorer's
`get_param_config` all raise `ValueError("不支持的分布: …")`, but the
CLT engine's describe operation, `get_distribution_description`,
instead returns the placeholder text `"暂无描述"` without raising. -/
theorem C3_lookup_behavior (nm : String)
    (hclt : nm ∉ CLTSimulator.distributions.map Prod.fst)
    (hexp : nm ∉ DistributionExplorer.distributions.map Prod.fst) :
    CLTSimulator.get_distribution_info nm =
      .error ("不支持的分布: " ++ nm) ∧
    DistributionExplorer.get_distribution_info_lookup nm =
      .error ("不支持的分布: " ++ nm) ∧
    DistributionExplorer.get_param_config nm =
      .error ("不支持的分布: " ++ nm) ∧
    CLTSimulator.get_distribution_description nm = "暂无描述" := by
  refine ⟨?_, ?_, ?_, ?_⟩
  · unfold CLTSimulator.get_distribution_info
    rw [lookup_eq_none_of_not_mem_keys _ _ hclt]
  · unfold DistributionExplorer.get_distribution_info_lookup
    rw [lookup_eq_none_of_not_mem_keys _ _ hexp]
  · unfold DistributionExplorer.get_param_config
    rw [lookup_eq_none_of_not_mem_keys _ _ hexp]
  · unfold CLTSimulator.get_distribution_description
    have hkeys : CLTSimulator.descriptions.map Prod.fst =
        CLTSimulator.distributions.map Prod.fst := by decide
    have hk : nm ∉ CLTSimulator.descriptions.map Prod.fst := by
      rw [hkeys]; exact hclt
    rw [lookup_eq_none_of_not_mem_keys _ _ hk]
    rfl

/-- C3 (witness): the amended theorem applied to a concrete name not
in either catalog. -/
theorem C3_witness :
    CLTSimulator.get_distribution_info "不存在的分布" =
      .error ("不支持的分布: " ++ "不存在的分布") ∧
    DistributionExplorer.get_distribution_info_lookup "不存在的分布" =
      .error ("不支持的分布: " ++ "不存在的分布") ∧
    DistributionExplorer.get_param_config "不存在的分布" =
      .error ("不支持的分布: " ++ "不存在的分布") ∧
    CLTSimulator.get_distribution_description "不存在的分布" = "暂无描述" :=
  C3_lookup_behavior "不存在的分布" (by decide) (by decide)

/-- C7: for every distribution of the Explorer catalog and every raw
parameter mapping, `_validate_params` (clamping) is idempotent. -/
theorem C7_clamp_idempotent (nm : String)
    (cfg : DistributionExplorer.DistConfig)
    (h : (nm, cfg) ∈ DistributionExplorer.distributions)
    (p : String → Option ℚ) :
    DistributionExplorer.validate_params cfg
      (DistributionExplorer.asParamMap
        (DistributionExplorer.validate_params cfg p)) =
    DistributionExplorer.validate_params cfg p := by
  refine validateList_idem cfg.params ?_ p
  fin_cases h <;> decide

/-- C7 (witness): idempotence at the Normal entry with a raw mapping
that supplies an out-of-range `scale` and omits `loc`. -/
theorem C7_witness :
    DistributionExplorer.validate_params DistributionExplorer.normalConfig
      (DistributionExplorer.asParamMap
        (DistributionExplorer.validate_params DistributionExplorer.normalConfig
          (fun s => if s = "scale" then some 100 else Option.none))) =
    DistributionExplorer.validate_params DistributionExplorer.normalConfig
      (fun s => if s = "scale" then some 100 else Option.none) :=
  C7_clamp_idempotent "正态分布" DistributionExplorer.normalConfig
    (List.mem_cons_self _ _)
    (fun s => if s = "scale" then some 100 else Option.none)

/-- C8: for every distribution of the Explorer catalog, clamping the
empty raw parameter mapping returns exactly the declared default of
every parameter in the spec, and nothing else. -/
theorem C8_defaults (nm : String) (cfg : DistributionExplorer.DistConfig)
    (h : (nm, cfg) ∈ DistributionExplorer.distributions) :
    DistributionExplorer.validate_params cfg (fun _ => Option.none) =
      cfg.params.map (fun pc => (pc.1, pc.2.default)) := by
  fin_cases h <;>
    norm_num [DistributionExplorer.validate_params,
      DistributionExplorer.validateList, DistributionExplorer.clampValue,
      DistributionExplorer.normalConfig, pymin, pymax]

/-- C8 (witness): the defaults of the Normal entry. -/
theorem C8_witness :
    DistributionExplorer.validate_params DistributionExplorer.normalConfig
      (fun _ => Option.none) =
    DistributionExplorer.normalConfig.params.map
      (fun pc => (pc.1, pc.2.default)) :=
  C8_defaults "正态分布" DistributionExplorer.normalConfig
    (List.mem_cons_self _ _)

theorem arangeInts_length (lo hi : ℤ) :
    (DistributionExplorer.arangeInts lo hi).length = (hi + 1 - lo).toNat := by
  unfold DistributionExplorer.arangeInts
  rw [List.length_map, List.length_range]

theorem calculate_pdf_pmf_discrete_auto_xs (d : DistributionExplorer.FrozenDist) :
    (DistributionExplorer.calculate_pdf_pmf .discrete d Option.none 1000).1 =
      (DistributionExplorer.arangeInts
        (DistributionExplorer.discreteAutoRange d).1
        (DistributionExplorer.discreteAutoRange d).2).map (fun i : ℤ => (i : ℚ)) :=
  rfl

theorem calculate_pdf_pmf_custom_xs (d : DistributionExplorer.FrozenDist)
    (a b : ℚ) (n : ℕ) :
    (DistributionExplorer.calculate_pdf_pmf .continuous d (some (a, b)) n).1 =
      DistributionExplorer.linspace a b n :=
  rfl

theorem linspace_length (lo hi : ℚ) (n : ℕ) :
    (DistributionExplorer.linspace lo hi n).length = n := by
  unfold DistributionExplorer.linspace
  rw [List.length_map, List.length_range]

theorem discreteAutoRange_span (d : DistributionExplorer.FrozenDist) :
    (DistributionExplorer.discreteAutoRange d).2 -
      (DistributionExplorer.discreteAutoRange d).1 ≤ 100 := by
  obtain ⟨p1, p9, m, s, f, g⟩ := d
  unfold DistributionExplorer.discreteAutoRange
  cases p1 with
  | none => norm_num
  | some a =>
    cases p9 with
    | none => cases a <;> norm_num
    | some b =>
      cases a <;> cases b <;>
        dsimp only [DistributionExplorer.pyIntSF, pymaxZ] <;>
        first
        | (split_ifs <;> omega)
        | norm_num

/-- C5 (counterexample): the discrete auto-range cap
`if x_max - x_min > 100: x_max = x_min + 100` bounds the *span* at 100,
which yields `np.arange(x_min, x_max + 1)` with 101 integer points —
more than the claimed 100.  The catalog's geometric distribution at the
admissible parameter `p = 0.01` realises this: its 0.1% and 99.9%
quantiles are 1 and 688 (certified here against `geomCdf`:
`1 - 0.99^687 < 0.999 ≤ 1 - 0.99^688` and `0.001 ≤ 1 - 0.99^1`), so
the auto-selected domain is `1 … 101`, i.e. 101 points. -/
theorem C5_counterexample :
    DistributionExplorer.geomCdf (1/100) 0 < 1/1000 ∧
    1/1000 ≤ DistributionExplorer.geomCdf (1/100) 1 ∧
    DistributionExplorer.geomCdf (1/100) 687 < 999/1000 ∧
    999/1000 ≤ DistributionExplorer.geomCdf (1/100) 688 ∧
    DistributionExplorer.discreteAutoRange DistributionExplorer.geomLowP =
      (1, 101) ∧
    ((DistributionExplorer.calculate_pdf_pmf .discrete
        DistributionExplorer.geomLowP Option.none 1000).1).length = 101 ∧
    100 < ((DistributionExplorer.calculate_pdf_pmf .discrete
        DistributionExplorer.geomLowP Option.none 1000).1).length := by
  have hrange : DistributionExplorer.discreteAutoRange
      DistributionExplorer.geomLowP = (1, 101) := by
    show DistributionExplorer.discreteAutoRange
      ⟨some (.fin 1), some (.fin 688), some 100, some 100,
       fun _ => 0, DistributionExplorer.geomPmf (1/100)⟩ = (1, 101)
    unfold DistributionExplorer.discreteAutoRange
    dsimp only [DistributionExplorer.pyIntSF, pymaxZ, pyInt]
    norm_num
  have hlen : ((DistributionExplorer.calculate_pdf_pmf .discrete
      DistributionExplorer.geomLowP Option.none 1000).1).length = 101 := by
    rw [calculate_pdf_pmf_discrete_auto_xs, List.length_map,
      arangeInts_length, hrange]
    rfl
  refine ⟨?_, ?_, ?_, ?_, hrange, hlen, ?_⟩
  · norm_num [DistributionExplorer.geomCdf]
  · norm_num [DistributionExplorer.geomCdf]
  · norm_num [DistributionExplorer.geomCdf]
  · norm_num [DistributionExplorer.geomCdf]
  · rw [hlen]
    norm_num

/-- C5 (amended): for every discrete distribution (any quantile oracle
behaviour), the auto-selected display domain of `calculate_pdf_pmf`
contains at most 101 integer points (the span is capped at 100). -/
theorem C5_at_most_101 (d : DistributionExplorer.FrozenDist) :
    ((DistributionExplorer.calculate_pdf_pmf .discrete d
        Option.none 1000).1).length ≤ 101 := by
  rw [calculate_pdf_pmf_discrete_auto_xs, List.length_map, arangeInts_length]
  have := discreteAutoRange_span d
  omega

/-- C6 (counterexample): when the quantile lookup of a *discrete*
distribution raises, `calculate_pdf_pmf` falls back to the literal
bounds `(0, 20)` — not to `[-5, 5]` as the claim states for every
catalog distribution. -/
theorem C6_counterexample :
    DistributionExplorer.failingDist.ppf001 = Option.none ∧
    DistributionExplorer.discreteAutoRange DistributionExplorer.failingDist =
      (0, 20) ∧
    ((0 : ℤ), (20 : ℤ)) ≠ ((-5 : ℤ), (5 : ℤ)) ∧
    (DistributionExplorer.calculate_pdf_pmf .discrete
        DistributionExplorer.failingDist Option.none 1000).1 =
      (DistributionExplorer.arangeInts 0 20).map (fun i : ℤ => (i : ℚ)) := by
  exact ⟨rfl, rfl, by decide, rfl⟩

/-- C6 (amended): `calculate_pdf_pmf` never fails on a quantile-lookup
exception: the continuous auto-range falls back to the literal bounds
`(-5, 5)` and the discrete auto-range falls back to `(0, 20)`. -/
theorem C6_fallback (d : DistributionExplorer.FrozenDist)
    (h : d.ppf001 = Option.none ∨ d.ppf999 = Option.none) :
    DistributionExplorer.contAutoRange d = (-5, 5) ∧
    DistributionExplorer.discreteAutoRange d = (0, 20) := by
  unfold DistributionExplorer.contAutoRange
    DistributionExplorer.discreteAutoRange
  rcases h with h | h
  · rw [h]
    exact ⟨rfl, rfl⟩
  · rw [h]
    cases hp : d.ppf001 with
    | none => exact ⟨rfl, rfl⟩
    | some a => cases a <;> exact ⟨rfl, rfl⟩

/-- C6 (witness): the fallback theorem at a frozen distribution whose
quantile calls raise. -/
theorem C6_witness :
    DistributionExplorer.contAutoRange DistributionExplorer.failingDist =
      (-5, 5) ∧
    DistributionExplorer.discreteAutoRange DistributionExplorer.failingDist =
      (0, 20) :=
  C6_fallback DistributionExplorer.failingDist (Or.inl rfl)

/-- C9: for a continuous distribution with a caller-supplied range
`(a, b)` (with `a ≤ b`), `calculate_pdf_pmf` evaluates the density at
exactly 1000 x-values, the `i`-th being `a + (b - a) · i / 999`
(evenly spaced), and all of them lie within `[a, b]`. -/
theorem C9_custom_range (d : DistributionExplorer.FrozenDist) (a b : ℚ)
    (hab : a ≤ b) :
    ((DistributionExplorer.calculate_pdf_pmf .continuous d
        (some (a, b)) 1000).1).length = 1000 ∧
    (∀ i : ℕ, i < 1000 →
      ((DistributionExplorer.calculate_pdf_pmf .continuous d
          (some (a, b)) 1000).1)[i]? =
        some (a + (b - a) * (i : ℚ) / 999)) ∧
    (∀ x ∈ (DistributionExplorer.calculate_pdf_pmf .continuous d
        (some (a, b)) 1000).1, a ≤ x ∧ x ≤ b) := by
  refine ⟨?_, ?_, ?_⟩
  · rw [calculate_pdf_pmf_custom_xs, linspace_length]
  · intro i hi
    rw [calculate_pdf_pmf_custom_xs]
    unfold DistributionExplorer.linspace
    rw [List.getElem?_map, List.getElem?_range hi]
    norm_num
  · intro x hx
    rw [calculate_pdf_pmf_custom_xs] at hx
    unfold DistributionExplorer.linspace at hx
    rw [List.mem_map] at hx
    obtain ⟨i, hi, rfl⟩ := hx
    rw [List.mem_range] at hi
    have hi9 : (i : ℚ) ≤ 999 := by
      have : i ≤ 999 := Nat.le_of_lt_succ hi
      exact_mod_cast this
    have hi0 : (0 : ℚ) ≤ (i : ℚ) := Nat.cast_nonneg i
    have hnum : (0 : ℚ) ≤ (b - a) * i := by
      apply mul_nonneg (by linarith) hi0
    have hlow : (0 : ℚ) ≤ (b - a) * i / ((1000 : ℚ) - 1) := by
      apply div_nonneg hnum
      norm_num
    have hhigh : (b - a) * i / ((1000 : ℚ) - 1) ≤ b - a := by
      rw [div_le_iff₀ (by norm_num : (0 : ℚ) < (1000 : ℚ) - 1)]
      nlinarith
    exact ⟨by linarith, by linarith⟩

/-- C9 (witness): the custom-range theorem at the standard normal
oracle with the range `(-2, 2)` of the spec's scenario. -/
theorem C9_witness :
    ((DistributionExplorer.calculate_pdf_pmf .continuous
        DistributionExplorer.stdNormalDist (some (-2, 2)) 1000).1).length =
      1000 ∧
    (∀ i : ℕ, i < 1000 →
      ((DistributionExplorer.calculate_pdf_pmf .continuous
          DistributionExplorer.stdNormalDist (some (-2, 2)) 1000).1)[i]? =
        some (-2 + (2 - -2) * (i : ℚ) / 999)) ∧
    (∀ x ∈ (DistributionExplorer.calculate_pdf_pmf .continuous
        DistributionExplorer.stdNormalDist (some (-2, 2)) 1000).1,
      -2 ≤ x ∧ x ≤ 2) :=
  C9_custom_range DistributionExplorer.stdNormalDist (-2) 2 (by norm_num)

theorem simulate_sampling_means (draw : ℕ → ℝ) (tm ts : ℝ) (n m : ℕ) :
    (CLTSimulator.simulate_sampling draw tm ts n m).1 =
      (List.range m).map (fun i : ℕ =>
        CLTSimulator.npMean ((List.range n).map (fun j : ℕ =>
          draw (i * n + j)))) :=
  rfl

theorem simulate_sampling_means_length (draw : ℕ → ℝ) (tm ts : ℝ) (n m : ℕ) :
    ((CLTSimulator.simulate_sampling draw tm ts n m).1).length = m := by
  rw [simulate_sampling_means, List.length_map, List.length_range]

theorem npStd_zero_lt_npStd_one (xs : List ℝ) (h2 : 2 ≤ xs.length)
    (hS : 0 < (xs.map (fun x => (x - CLTSimulator.npMean xs) ^ 2)).sum) :
    CLTSimulator.npStd xs 0 < CLTSimulator.npStd xs 1 := by
  unfold CLTSimulator.npStd CLTSimulator.npVar
  have hl2 : (2 : ℝ) ≤ (xs.length : ℝ) := by exact_mod_cast h2
  apply Real.sqrt_lt_sqrt
  · apply div_nonneg (le_of_lt hS)
    push_cast
    linarith
  · apply div_lt_div_of_pos_left hS
    · push_cast
      linarith
    · push_cast
      linarith

/-- C2: for every draw stream and every catalog moment data,
`simulate_sampling` returns exactly `num_samples` sample means, the
`i`-th being the arithmetic mean of exactly `sample_size` draws (the
`sample_size` fresh stream values `i·n … i·n + n − 1`). -/
theorem C2_simulate_sampling_shape (draw : ℕ → ℝ) (tm ts : ℝ) (n m : ℕ)
    (hn : 1 ≤ n) (hm : 1 ≤ m) :
    ((CLTSimulator.simulate_sampling draw tm ts n m).1).length = m ∧
    ∀ i : ℕ, i < m →
      ((CLTSimulator.simulate_sampling draw tm ts n m).1)[i]? =
        some ((((List.range n).map (fun j : ℕ => draw (i * n + j))).sum) /
          (n : ℝ)) := by
  constructor
  · exact simulate_sampling_means_length draw tm ts n m
  · intro i hi
    rw [simulate_sampling_means, List.getElem?_map, List.getElem?_range hi]
    have hbatch : CLTSimulator.npMean
        ((List.range n).map (fun j : ℕ => draw (i * n + j))) =
        (((List.range n).map (fun j : ℕ => draw (i * n + j))).sum) / (n : ℝ) := by
      unfold CLTSimulator.npMean
      rw [List.length_map, List.length_range]
    rw [← hbatch]
    rfl

/-- C2 (witness): the shape theorem at the identity draw stream with
`n = 2`, `m = 3`. -/
theorem C2_witness :
    ((CLTSimulator.simulate_sampling (fun k => (k : ℝ)) 0 1 2 3).1).length = 3 ∧
    ∀ i : ℕ, i < 3 →
      ((CLTSimulator.simulate_sampling (fun k => (k : ℝ)) 0 1 2 3).1)[i]? =
        some ((((List.range 2).map (fun j : ℕ => ((i * 2 + j : ℕ) : ℝ))).sum) /
          (2 : ℝ)) :=
  C2_simulate_sampling_shape (fun k => (k : ℝ)) 0 1 2 3
    (by norm_num) (by norm_num)

/-- C4: the empirical standard deviation reported by
`simulate_sampling` is the Bessel-corrected sample standard deviation
(divisor `m − 1`, via `np.std(·, ddof=1)`), and the reported
theoretical standard error is the population standard deviation divided
by `√sample_size`. -/
theorem C4_statistics_formulas (draw : ℕ → ℝ) (tm ts : ℝ) (n m : ℕ)
    (hm : 2 ≤ m) :
    ((CLTSimulator.simulate_sampling draw tm ts n m).2).sample_mean_std =
      besselSampleStd ((CLTSimulator.simulate_sampling draw tm ts n m).1) ∧
    ((CLTSimulator.simulate_sampling draw tm ts n m).2).theoretical_std_of_means =
      ts / Real.sqrt n := by
  constructor
  · show CLTSimulator.npStd ((CLTSimulator.simulate_sampling draw tm ts n m).1) 1 =
      besselSampleStd ((CLTSimulator.simulate_sampling draw tm ts n m).1)
    simp only [CLTSimulator.npStd, CLTSimulator.npVar, CLTSimulator.npMean,
      besselSampleStd, Nat.cast_one]
  · rfl

/-- C4 (witness): the statistics formulas at the zero draw stream with
`n = 1`, `m = 2`. -/
theorem C4_witness :
    ((CLTSimulator.simulate_sampling (fun _ => (0 : ℝ)) 0 1 1 2).2).sample_mean_std =
      besselSampleStd ((CLTSimulator.simulate_sampling (fun _ => (0 : ℝ)) 0 1 1 2).1) ∧
    ((CLTSimulator.simulate_sampling (fun _ => (0 : ℝ)) 0 1 1 2).2).theoretical_std_of_means =
      1 / Real.sqrt ((1 : ℕ) : ℝ) :=
  C4_statistics_formulas (fun _ => (0 : ℝ)) 0 1 1 2 (by norm_num)

/-- C10: the standard deviation used to parameterise the
Kolmogorov–Smirnov reference normal in `calculate_normality_test` is
`np.std(sample_means)` with NumPy's default `ddof=0` — the uncorrected
standard deviation with divisor `m` — and for a sample-means sequence
with nonzero sample variance it is strictly smaller than the
Bessel-corrected standard deviation reported by `simulate_sampling`
for the same sequence. -/
theorem C10_ks_sigma_uncorrected (draw : ℕ → ℝ) (tm ts : ℝ) (n m : ℕ)
    (hm : 2 ≤ m)
    (hS : 0 < (((CLTSimulator.simulate_sampling draw tm ts n m).1).map
      (fun x => (x - CLTSimulator.npMean
        ((CLTSimulator.simulate_sampling draw tm ts n m).1)) ^ 2)).sum) :
    (CLTSimulator.ks_test_args
        ((CLTSimulator.simulate_sampling draw tm ts n m).1)).2 =
      Real.sqrt ((((CLTSimulator.simulate_sampling draw tm ts n m).1).map
        (fun x => (x - CLTSimulator.npMean
          ((CLTSimulator.simulate_sampling draw tm ts n m).1)) ^ 2)).sum /
        (m : ℝ)) ∧
    (CLTSimulator.ks_test_args
        ((CLTSimulator.simulate_sampling draw tm ts n m).1)).2 <
      ((CLTSimulator.simulate_sampling draw tm ts n m).2).sample_mean_std := by
  have hlen := simulate_sampling_means_length draw tm ts n m
  constructor
  · show CLTSimulator.npStd ((CLTSimulator.simulate_sampling draw tm ts n m).1) 0 = _
    unfold CLTSimulator.npStd CLTSimulator.npVar
    rw [hlen]
    norm_num
  · show CLTSimulator.npStd ((CLTSimulator.simulate_sampling draw tm ts n m).1) 0 <
      CLTSimulator.npStd ((CLTSimulator.simulate_sampling draw tm ts n m).1) 1
    apply npStd_zero_lt_npStd_one _ _ hS
    rw [hlen]
    exact hm

/-- C10 (witness): the theorem at the identity draw stream with
`n = 1`, `m = 2`, whose sample means are `[0, 1]`. -/
theorem C10_witness :
    (CLTSimulator.ks_test_args
        ((CLTSimulator.simulate_sampling (fun k => (k : ℝ)) 0 1 1 2).1)).2 =
      Real.sqrt ((((CLTSimulator.simulate_sampling (fun k => (k : ℝ)) 0 1 1 2).1).map
        (fun x => (x - CLTSimulator.npMean
          ((CLTSimulator.simulate_sampling (fun k => (k : ℝ)) 0 1 1 2).1)) ^ 2)).sum /
        ((2 : ℕ) : ℝ)) ∧
    (CLTSimulator.ks_test_args
        ((CLTSimulator.simulate_sampling (fun k => (k : ℝ)) 0 1 1 2).1)).2 <
      ((CLTSimulator.simulate_sampling (fun k => (k : ℝ)) 0 1 1 2).2).sample_mean_std :=
  C10_ks_sigma_uncorrected (fun k => (k : ℝ)) 0 1 1 2 (by norm_num)
    (by
      have hms : (CLTSimulator.simulate_sampling (fun k => (k : ℝ)) 0 1 1 2).1 =
          [0, 1] := by
        rw [simulate_sampling_means]
        show [CLTSimulator.npMean [((0 : ℕ) : ℝ)],
          CLTSimulator.npMean [((1 * 1 + 0 : ℕ) : ℝ)]] = [0, 1]
        norm_num [CLTSimulator.npMean]
      rw [hms]
      norm_num [CLTSimulator.npMean])

end ProbHorizon
